import Mathlib

/-!
Shallow embedding of the `SessionManager` class from `src/session-manager.js`
(luma-design/savestate).

Conventions of the embedding:
* `Date.now()` is passed in explicitly as `now : Nat`.
* `chrome.storage.local` is modelled by threading the persisted `Storage`
  record through each operation; an operation that does not call
  `saveStorage` returns the incoming record unchanged.
* `chrome.tabs.query({})` is passed in explicitly as `allTabs : List BrowserTab`.
* JS `undefined` on an optional field is `Option.none`; a JS string field
  that the code only ever tests for truthiness is a `String` with `""`
  standing for both the empty string and `undefined` (the code treats the
  two alike via `!url` / `url || ...`).
* A thrown `Error` is `Except.error` carrying the message (or, for the
  session switch/restore validation errors, a dedicated error type whose
  constructors correspond to the three message templates).
* The manager instance state (`this.currentSessionId`, `this.sessionCounter`)
  is the `MgrState` record.  `this.sessionCounter` starts at
  `Math.random() * 10000` and is only ever incremented by one; the model
  keeps a `Nat` counter with an arbitrary starting value, which preserves
  the strict monotonicity the code relies on.
-/

/-- A tab descriptor as delivered by the host (`chrome.tabs`). -/
structure BrowserTab where
  id : Nat
  windowId : Nat
  url : String
  title : String
  favIconUrl : String
  incognito : Bool
deriving DecidableEq

/-- A persisted tab record (`TabEntry` objects built at lines 107-115 and
156-164 of `src/session-manager.js`). -/
structure TabEntry where
  id : String
  tabId : Nat
  windowId : Nat
  url : Option String
  title : String
  timestamp : Nat
  favicon : String
  closedAt : Option Nat
deriving DecidableEq

/-- A session record (built at lines 117-124 of `src/session-manager.js`).
`status` is `none` while the JS field is still `undefined`. -/
structure Session where
  id : String
  name : String
  created : Nat
  modified : Nat
  tabs : List TabEntry
  closedTabs : List TabEntry
  status : Option String
deriving DecidableEq

/-- The single persisted record kept under `CONFIG.STORAGE_KEY`
(`getStorage` / `saveStorage`, lines 45-55). -/
structure Storage where
  sessions : List Session
  currentSessionId : Option String
deriving DecidableEq

/-- The manager instance fields relevant to the claims
(`this.currentSessionId`, `this.sessionCounter`; constructor lines 18-23). -/
structure MgrState where
  currentSessionId : Option String
  sessionCounter : Nat
deriving DecidableEq

/-- The limits from `this.CONFIG` (lines 8-16).  The JS constructor applies
`config.MAX_SESSIONS || 50`, so in any reachable configuration both limits
are positive; theorems that need positivity take it as a hypothesis. -/
structure Config where
  MAX_SESSIONS : Nat
  MAX_CLOSED_TABS : Nat
deriving DecidableEq

/-- JS `String.prototype.startsWith(prefixStr)`: a prefix test, written over
the character lists so that it evaluates on concrete strings. -/
def strStartsWith (s pat : String) : Bool := pat.data.isPrefixOf s.data

/-- `isSystemUrl(url)`, lines 292-309.  `!url` is true for the empty string
(which also stands for an `undefined` url in this model). -/
def isSystemUrl (url : String) : Bool :=
  url == "" ||
  url == "chrome://newtab/" ||
  url == "about:blank" ||
  url == "about:newtab" ||
  strStartsWith url "chrome://" ||
  strStartsWith url "about:" ||
  strStartsWith url "chrome-extension://" ||
  strStartsWith url "edge://" ||
  strStartsWith url "brave://" ||
  strStartsWith url "moz-extension://" ||
  strStartsWith url "opera://" ||
  strStartsWith url "vivaldi://" ||
  strStartsWith url "javascript:" ||
  strStartsWith url "data:" ||
  strStartsWith url "blob:"

/-- `formatSessionName(timestamp)`, lines 314-316: always the empty string. -/
def formatSessionName (_timestamp : Nat) : String := ""

/-- The session id template from line 99:
`` `session_${Date.now()}_${this.sessionCounter}` ``. -/
def mintSessionId (now counter : Nat) : String :=
  "session_" ++ Nat.repr now ++ "_" ++ Nat.repr counter

/-- The tab entry built from a host tab (lines 107-115 and 156-164):
`title: tab.title || 'Loading...'`, `favicon: tab.favIconUrl || ''`. -/
def mkTabEntry (now : Nat) (t : BrowserTab) : TabEntry :=
  { id := "tab_" ++ Nat.repr now ++ "_" ++ Nat.repr t.id
    tabId := t.id
    windowId := t.windowId
    url := some t.url
    title := if t.title.isEmpty then "Loading..." else t.title
    timestamp := now
    favicon := t.favIconUrl
    closedAt := none }

/-- `storage.sessions.find(s => s.id === sid)`: first session with the id. -/
def findSession : List Session → String → Option Session
  | [], _ => none
  | s :: rest, sid => if s.id = sid then some s else findSession rest sid

/-- In-place mutation of the session object returned by `find`, as seen by
the subsequent `saveStorage`: the first session with the id is rewritten. -/
def updateFirstSession : List Session → String → (Session → Session) → List Session
  | [], _, _ => []
  | s :: rest, sid, f =>
    if s.id = sid then f s :: rest else s :: updateFirstSession rest sid f

/-- `session.tabs.find/findIndex(t => t.tabId === tabId)`: first entry. -/
def findTab : List TabEntry → Nat → Option TabEntry
  | [], _ => none
  | e :: rest, tid => if e.tabId = tid then some e else findTab rest tid

/-- `session.tabs[i] = entry` at the first index satisfying `p`
(the result of `findIndex`). -/
def replaceFirstTab (p : TabEntry → Bool) (e : TabEntry) : List TabEntry → List TabEntry
  | [] => []
  | t :: rest => if p t then e :: rest else t :: replaceFirstTab p e rest

/-- In-place update of the first entry with the given `tabId`. -/
def updateFirstTabBy (tid : Nat) (f : TabEntry → TabEntry) : List TabEntry → List TabEntry
  | [] => []
  | e :: rest => if e.tabId = tid then f e :: rest else e :: updateFirstTabBy tid f rest

/-- The tab filter of `createNewSession` (lines 103-105): incognito tabs
whose url is not a system url. -/
def validIncognitoTabs (allTabs : List BrowserTab) : List BrowserTab :=
  (allTabs.filter (fun t => t.incognito)).filter (fun t => !isSystemUrl t.url)

/-- `createNewSession()`, lines 96-138.  Returns the new manager state, the
saved storage and the minted session id. -/
def createNewSession (cfg : Config) (st : MgrState) (storage : Storage)
    (now : Nat) (allTabs : List BrowserTab) : MgrState × Storage × String :=
  let counter := st.sessionCounter + 1
  let sessionId := mintSessionId now counter
  let tabs := (validIncognitoTabs allTabs).map (mkTabEntry now)
  let newSession : Session :=
    { id := sessionId
      name := formatSessionName now
      created := now
      modified := now
      tabs := tabs
      closedTabs := []
      status := none }
  let sessions := newSession :: storage.sessions
  let sessions :=
    if sessions.length > cfg.MAX_SESSIONS then sessions.take cfg.MAX_SESSIONS else sessions
  ( { currentSessionId := some sessionId, sessionCounter := counter },
    { sessions := sessions, currentSessionId := some sessionId },
    sessionId )

/-- `ensureActiveSession()`, lines 74-91, in its sequential (single-caller)
semantics: if `this.currentSessionId` resolves to a stored session it is
returned, otherwise `createNewSession` runs.  (The in-flight-promise guard
only matters under concurrent interleavings; that mechanism is modelled
separately by `ensureStep` below.) -/
def ensureActiveSession (cfg : Config) (st : MgrState) (storage : Storage)
    (now : Nat) (allTabs : List BrowserTab) : MgrState × Storage × String :=
  match st.currentSessionId with
  | some sid =>
    match findSession storage.sessions sid with
    | some _ => (st, storage, sid)
    | none => createNewSession cfg st storage now allTabs
  | none => createNewSession cfg st storage now allTabs

/-- `addTabToSession(tab)`, lines 144-180.  `ensureActiveSession` is invoked
only when `this.currentSessionId` is null (line 145); afterwards storage is
re-read and the current session looked up, throwing
`'Current session not found'` when the lookup fails (line 153). -/
def addTabToSession (cfg : Config) (st : MgrState) (storage : Storage)
    (now : Nat) (allTabs : List BrowserTab) (tab : BrowserTab) :
    Except String (MgrState × Storage) :=
  let ensured :=
    match st.currentSessionId with
    | none =>
      let r := ensureActiveSession cfg st storage now allTabs
      (r.1, r.2.1)
    | some _ => (st, storage)
  let st1 := ensured.1
  let storage1 := ensured.2
  match st1.currentSessionId with
  | none => Except.error "Current session not found"
  | some sid =>
    match findSession storage1.sessions sid with
    | none => Except.error "Current session not found"
    | some session =>
      let entry := mkTabEntry now tab
      let newTabs :=
        if session.tabs.any (fun t => t.tabId == tab.id) then
          replaceFirstTab (fun t => t.tabId == tab.id) entry session.tabs
        else if session.tabs.any (fun t => t.url == some tab.url) then
          replaceFirstTab (fun t => t.url == some tab.url) entry session.tabs
        else session.tabs ++ [entry]
      let sessions1 := updateFirstSession storage1.sessions sid
        (fun s => { s with tabs := newTabs, modified := now })
      Except.ok (st1, { storage1 with sessions := sessions1 })

/-- The partial tab descriptor received by `updateTabInSession`: each field
may be absent (`undefined`). -/
structure PartialTab where
  url : Option String
  title : Option String
  favIconUrl : Option String
deriving DecidableEq

/-- The merge at lines 197-203: `url` is written unconditionally
(`url: tab.url`), `title` and `favicon` only when provided
(`tab.title !== undefined ? ... : ...`), `timestamp` refreshed; the object
spread keeps `id`, `tabId`, `windowId` and `closedAt`. -/
def mergeTab (now : Nat) (p : PartialTab) (e : TabEntry) : TabEntry :=
  { e with
    url := p.url
    title := p.title.getD e.title
    favicon := p.favIconUrl.getD e.favicon
    timestamp := now }

/-- `updateTabInSession(tabId, tab)`, lines 186-208.  Throws
`'Current session not found'` when the current session does not resolve
(line 191); silently does nothing (no save) when the session has no entry
with the `tabId` (the `if (tabIndex >= 0)` guard, line 196). -/
def updateTabInSession (st : MgrState) (storage : Storage) (now : Nat)
    (tabId : Nat) (tab : PartialTab) : Except String Storage :=
  match st.currentSessionId with
  | none => Except.error "Current session not found"
  | some sid =>
    match findSession storage.sessions sid with
    | none => Except.error "Current session not found"
    | some session =>
      match findTab session.tabs tabId with
      | none => Except.ok storage
      | some _ =>
        let upd := fun (s : Session) =>
          { s with tabs := updateFirstTabBy tabId (mergeTab now tab) s.tabs, modified := now }
        Except.ok { storage with sessions := updateFirstSession storage.sessions sid upd }

/-- The closed-tab stamp at line 225: `tab.closedAt = Date.now()`. -/
def stampClosed (now : Nat) (e : TabEntry) : TabEntry := { e with closedAt := some now }

/-- `moveTabToClosedTabs(tabId)`, lines 213-243.  Returns without saving when
the current session does not resolve (line 218) or no entry matches
(line 223); otherwise stamps `closedAt`, unshifts onto `closedTabs`,
truncates to `MAX_CLOSED_TABS`, and removes every entry with the `tabId`
from `tabs` (the `filter` at line 238). -/
def moveTabToClosedTabs (cfg : Config) (st : MgrState) (storage : Storage)
    (now : Nat) (tabId : Nat) : Storage :=
  match st.currentSessionId with
  | none => storage
  | some sid =>
    match findSession storage.sessions sid with
    | none => storage
    | some session =>
      match findTab session.tabs tabId with
      | none => storage
      | some e =>
        let ct := stampClosed now e :: session.closedTabs
        let ct := if ct.length > cfg.MAX_CLOSED_TABS then ct.take cfg.MAX_CLOSED_TABS else ct
        let sessions1 := updateFirstSession storage.sessions sid
          (fun s => { s with
            tabs := s.tabs.filter (fun t => t.tabId != tabId)
            closedTabs := ct
            modified := now })
        { storage with sessions := sessions1 }

/-- `closeSession(sessionId)`, lines 248-263. -/
def closeSession (st : MgrState) (storage : Storage) (now : Nat) (sessionId : String) :
    MgrState × Storage :=
  match findSession storage.sessions sessionId with
  | none => (st, storage)
  | some _ =>
    let sessions := updateFirstSession storage.sessions sessionId
      (fun s => { s with status := some "closed", modified := now })
    if st.currentSessionId = some sessionId then
      ({ st with currentSessionId := none },
       { sessions := sessions, currentSessionId := none })
    else
      (st, { storage with sessions := sessions })

/-- `manualSaveSession()`, lines 384-397: acts only when
`this.currentSessionId` is set and resolves; marks the session `"saved"`
and vacates the pointer in storage and in memory. -/
def manualSaveSession (st : MgrState) (storage : Storage) (now : Nat) :
    MgrState × Storage :=
  match st.currentSessionId with
  | none => (st, storage)
  | some sid =>
    match findSession storage.sessions sid with
    | none => (st, storage)
    | some _ =>
      ({ st with currentSessionId := none },
       { sessions := updateFirstSession storage.sessions sid
           (fun s => { s with status := some "saved", modified := now })
         currentSessionId := none })

/-- `deleteSession(sessionId)`, lines 329-339: removes every session with
the id; the pointer reset compares against the stored
`storage.currentSessionId` (line 333). -/
def deleteSession (st : MgrState) (storage : Storage) (sessionId : String) :
    MgrState × Storage :=
  let sessions := storage.sessions.filter (fun s => s.id != sessionId)
  if storage.currentSessionId = some sessionId then
    ({ st with currentSessionId := none },
     { sessions := sessions, currentSessionId := none })
  else
    (st, { storage with sessions := sessions })

/-- The three validation error shapes thrown by `switchToSession` /
`restoreSession` (message templates at lines 463, 468, 491, 496, 501). -/
inductive SessionError where
  | notFound (sid : String)
  | alreadyActive (sid : String)
  | emptySession (sid : String)
deriving DecidableEq

/-- `switchToSession(sessionId)`, lines 457-478. -/
def switchToSession (st : MgrState) (storage : Storage) (now : Nat) (sessionId : String) :
    Except SessionError (MgrState × Storage × String) :=
  match findSession storage.sessions sessionId with
  | none => Except.error (SessionError.notFound sessionId)
  | some _ =>
    if st.currentSessionId = some sessionId then
      Except.error (SessionError.alreadyActive sessionId)
    else
      Except.ok ({ st with currentSessionId := some sessionId },
        { sessions := updateFirstSession storage.sessions sessionId
            (fun s => { s with modified := now })
          currentSessionId := some sessionId },
        sessionId)

/-- `String.prototype.replace` with a string pattern replaces only the first
occurrence; this models `session.name.replace(' (Closed)', '')`. -/
def replaceFirstOccur (s pat : String) : String :=
  match s.splitOn pat with
  | [] => s
  | [p] => p
  | p :: rest => p ++ String.intercalate pat rest

/-- Lines 510-512: strip the `' (Closed)'` display suffix when the name is
truthy and ends with it. -/
def stripClosedName (name : String) : String :=
  if !name.isEmpty && name.endsWith " (Closed)" then
    replaceFirstOccur name " (Closed)"
  else name

/-- The record returned by `restoreSession` (lines 517-523). -/
structure RestoreResult where
  sessionId : String
  tabs : List TabEntry
  name : String
  created : Nat
  modified : Nat
deriving DecidableEq

/-- `restoreSession(sessionId)`, lines 485-524. -/
def restoreSession (st : MgrState) (storage : Storage) (now : Nat) (sessionId : String) :
    Except SessionError (MgrState × Storage × RestoreResult) :=
  match findSession storage.sessions sessionId with
  | none => Except.error (SessionError.notFound sessionId)
  | some session =>
    if st.currentSessionId = some sessionId then
      Except.error (SessionError.alreadyActive sessionId)
    else if session.tabs.isEmpty then
      Except.error (SessionError.emptySession sessionId)
    else
      Except.ok ({ st with currentSessionId := some sessionId },
        { sessions := updateFirstSession storage.sessions sessionId
            (fun s => { s with modified := now, name := stripClosedName s.name })
          currentSessionId := some sessionId },
        { sessionId := session.id
          tabs := session.tabs
          name := stripClosedName session.name
          created := session.created
          modified := now })

/-!
Concurrency model for `ensureActiveSession` (lines 74-91).

JS runs handlers single-threaded; the region from the no-active-session
check (line 78) through installing `this.sessionCreationPromise`
(lines 83-87) contains no `await` and is therefore one atomic step per
caller.  `EnsureEvent.check seesActive` is that step: `seesActive` is the
value of `this.currentSessionId && storage.sessions.find(...)` as seen by
this caller.  `EnsureEvent.settle success` is the settling of the in-flight
creation promise: the `.finally` at lines 84-86 clears the slot whether the
promise fulfilled or rejected.
-/
inductive EnsureEvent where
  | check (seesActive : Bool)
  | settle (success : Bool)
deriving DecidableEq

/-- The shared manager state driving the promise-slot mechanism:
`slot` is `this.sessionCreationPromise`, `nextPid` numbers the creation
promises in order of installation, `creations` counts `createNewSession()`
invocations started, and `waits` records, per caller that passed the check
without an active session, the promise id that caller awaits (line 89). -/
structure EnsureState where
  slot : Option Nat
  nextPid : Nat
  creations : Nat
  waits : List Nat
deriving DecidableEq

/-- The state before any caller runs: no promise in flight. -/
def ensureInit : EnsureState :=
  { slot := none, nextPid := 0, creations := 0, waits := [] }

/-- One atomic step of the mechanism (see the comment above `EnsureEvent`). -/
def ensureStep (s : EnsureState) : EnsureEvent → EnsureState
  | EnsureEvent.check true => s
  | EnsureEvent.check false =>
    match s.slot with
    | some p => { s with waits := s.waits ++ [p] }
    | none =>
      { slot := some s.nextPid
        nextPid := s.nextPid + 1
        creations := s.creations + 1
        waits := s.waits ++ [s.nextPid] }
  | EnsureEvent.settle _ => { s with slot := none }

/-- Run a sequence of interleaved caller/settle events from the initial
no-active-session state. -/
def ensureRun (evs : List EnsureEvent) : EnsureState :=
  evs.foldl ensureStep ensureInit

/-- Decimal decoding step used to invert `Nat.toDigits`. -/
def decStep (acc : Nat) (c : Char) : Nat := 10 * acc + (c.toNat - 48)

/-! ### Decimal printing: `Nat.repr` is injective and contains no underscore -/

theorem decStep_digitChar (acc d : Nat) (h : d < 10) :
    decStep acc (Nat.digitChar d) = 10 * acc + d := by
  interval_cases d <;> rfl

theorem digitChar_ne_sep (d : Nat) (h : d < 10) : Nat.digitChar d ≠ '_' := by
  interval_cases d <;> decide

theorem toDigitsCore_foldl_decStep :
    ∀ (f n : Nat) (ds : List Char), n < f →
      (Nat.toDigitsCore 10 f n ds).foldl decStep 0 = ds.foldl decStep n := by
  intro f
  induction f with
  | zero => intro n ds h; exact absurd h (Nat.not_lt_zero n)
  | succ f ih =>
    intro n ds h
    rw [Nat.toDigitsCore]
    by_cases hn : n / 10 = 0
    · have h10 : n < 10 := by
        by_contra hge
        have hp : 0 < n / 10 := Nat.div_pos (by omega) (by norm_num)
        omega
      simp only [hn, if_pos]
      rw [List.foldl_cons, decStep_digitChar 0 (n % 10) (Nat.mod_lt n (by omega))]
      rw [Nat.mod_eq_of_lt h10]
      norm_num
    · have hpos : 0 < n := by
        rcases Nat.eq_zero_or_pos n with h0 | h0
        · subst h0; simp at hn
        · exact h0
      have hdiv : n / 10 < n := Nat.div_lt_self hpos (by norm_num)
      have hf : n / 10 < f := by omega
      simp only [hn, if_neg, ite_false]
      rw [ih (n / 10) (Nat.digitChar (n % 10) :: ds) hf]
      rw [List.foldl_cons, decStep_digitChar (n / 10) (n % 10) (Nat.mod_lt n (by norm_num))]
      rw [Nat.div_add_mod n 10]

theorem toDigits_decode (n : Nat) : (Nat.toDigits 10 n).foldl decStep 0 = n := by
  have h := toDigitsCore_foldl_decStep (n + 1) n [] (Nat.lt_succ_self n)
  simpa [Nat.toDigits] using h

theorem reprNat_inj {m n : Nat} (h : Nat.repr m = Nat.repr n) : m = n := by
  have hl : Nat.toDigits 10 m = Nat.toDigits 10 n := congrArg String.data h
  calc m = (Nat.toDigits 10 m).foldl decStep 0 := (toDigits_decode m).symm
    _ = (Nat.toDigits 10 n).foldl decStep 0 := by rw [hl]
    _ = n := toDigits_decode n

theorem toDigitsCore_sep_free :
    ∀ (f n : Nat) (ds : List Char), (∀ c ∈ ds, c ≠ '_') →
      ∀ c ∈ Nat.toDigitsCore 10 f n ds, c ≠ '_' := by
  intro f
  induction f with
  | zero => intro n ds hds; simpa [Nat.toDigitsCore] using hds
  | succ f ih =>
    intro n ds hds
    rw [Nat.toDigitsCore]
    have hcons : ∀ c ∈ Nat.digitChar (n % 10) :: ds, c ≠ '_' := by
      intro c hc
      rcases List.mem_cons.mp hc with h | h
      · subst h; exact digitChar_ne_sep (n % 10) (Nat.mod_lt n (by omega))
      · exact hds c h
    by_cases hn : n / 10 = 0
    · simpa [hn] using hcons
    · simpa [hn] using ih (n / 10) (Nat.digitChar (n % 10) :: ds) hcons

theorem reprNat_sep_free (n : Nat) : ∀ c ∈ (Nat.repr n).data, c ≠ '_' := by
  have h : ∀ c ∈ Nat.toDigits 10 n, c ≠ '_' :=
    toDigitsCore_sep_free (n + 1) n [] (by simp)
  exact h

theorem sep_free_prefix_inj :
    ∀ (l1 l2 s1 s2 : List Char), (∀ c ∈ l1, c ≠ '_') → (∀ c ∈ l2, c ≠ '_') →
      l1 ++ '_' :: s1 = l2 ++ '_' :: s2 → l1 = l2 ∧ s1 = s2 := by
  intro l1
  induction l1 with
  | nil =>
    intro l2 s1 s2 h1 h2 h
    cases l2 with
    | nil => simpa using h
    | cons c t =>
      exfalso
      simp only [List.nil_append, List.cons_append, List.cons.injEq] at h
      exact h2 c (List.mem_cons_self _ _) h.1.symm
  | cons c t ih =>
    intro l2 s1 s2 h1 h2 h
    cases l2 with
    | nil =>
      exfalso
      simp only [List.nil_append, List.cons_append, List.cons.injEq] at h
      exact h1 c (List.mem_cons_self _ _) h.1
    | cons c2 t2 =>
      simp only [List.cons_append, List.cons.injEq] at h
      have ht := ih t2 s1 s2 (fun x hx => h1 x (List.mem_cons_of_mem c hx))
        (fun x hx => h2 x (List.mem_cons_of_mem c2 hx)) h.2
      exact ⟨by rw [h.1, ht.1], ht.2⟩

theorem sep_free_suffix_inj (p1 p2 r1 r2 : List Char)
    (h1 : ∀ c ∈ r1, c ≠ '_') (h2 : ∀ c ∈ r2, c ≠ '_')
    (h : p1 ++ '_' :: r1 = p2 ++ '_' :: r2) : r1 = r2 := by
  have h' := congrArg List.reverse h
  simp only [List.reverse_append, List.reverse_cons, List.append_assoc,
    List.singleton_append] at h'
  have hf1 : ∀ c ∈ r1.reverse, c ≠ '_' := fun c hc => h1 c (List.mem_reverse.mp hc)
  have hf2 : ∀ c ∈ r2.reverse, c ≠ '_' := fun c hc => h2 c (List.mem_reverse.mp hc)
  have hrev := (sep_free_prefix_inj r1.reverse r2.reverse p1.reverse p2.reverse hf1 hf2 h').1
  exact List.reverse_injective hrev

theorem mintSessionId_ne {n1 c1 n2 c2 : Nat} (hc : c1 ≠ c2) :
    mintSessionId n1 c1 ≠ mintSessionId n2 c2 := by
  intro h
  apply hc
  have hd := congrArg String.data h
  simp only [mintSessionId, String.data_append, List.append_assoc] at hd
  simp only [List.singleton_append] at hd
  rw [← List.append_assoc, ← List.append_assoc] at hd
  have hr := sep_free_suffix_inj _ _ _ _ (reprNat_sep_free c1) (reprNat_sep_free c2) hd
  exact reprNat_inj (String.ext hr)

/-! ### Basic lemmas about the storage helpers -/

theorem findSession_mem {l : List Session} {sid : String} {s : Session}
    (h : findSession l sid = some s) : s ∈ l ∧ s.id = sid := by
  induction l with
  | nil => simp [findSession] at h
  | cons a rest ih =>
    by_cases ha : a.id = sid
    · rw [findSession, if_pos ha] at h
      cases h
      exact ⟨List.mem_cons_self _ _, ha⟩
    · rw [findSession, if_neg ha] at h
      have := ih h
      exact ⟨List.mem_cons_of_mem a this.1, this.2⟩

theorem updateFirstSession_length (l : List Session) (sid : String) (f : Session → Session) :
    (updateFirstSession l sid f).length = l.length := by
  induction l with
  | nil => rfl
  | cons a rest ih =>
    rw [updateFirstSession]
    by_cases ha : a.id = sid
    · rw [if_pos ha]; rfl
    · rw [if_neg ha]; simpa using ih

theorem updateFirstSession_of_find_none {l : List Session} {sid : String}
    (f : Session → Session) (h : findSession l sid = none) :
    updateFirstSession l sid f = l := by
  induction l with
  | nil => rfl
  | cons a rest ih =>
    rw [findSession] at h
    by_cases ha : a.id = sid
    · rw [if_pos ha] at h; cases h
    · rw [if_neg ha] at h
      rw [updateFirstSession, if_neg ha, ih h]

theorem findSession_updateFirstSession_self {l : List Session} {sid : String}
    {s : Session} (f : Session → Session)
    (h : findSession l sid = some s) (hid : (f s).id = s.id) :
    findSession (updateFirstSession l sid f) sid = some (f s) := by
  induction l with
  | nil => simp [findSession] at h
  | cons a rest ih =>
    by_cases ha : a.id = sid
    · rw [findSession, if_pos ha] at h
      cases h
      rw [updateFirstSession, if_pos ha, findSession, if_pos (by rw [hid, ha])]
    · rw [findSession, if_neg ha] at h
      rw [updateFirstSession, if_neg ha, findSession, if_neg ha]
      exact ih h

theorem findSession_updateFirstSession_other {l : List Session} {sid sid2 : String}
    (f : Session → Session) (hne : sid2 ≠ sid) (hid : ∀ t, (f t).id = t.id) :
    findSession (updateFirstSession l sid f) sid2 = findSession l sid2 := by
  induction l with
  | nil => rfl
  | cons a rest ih =>
    by_cases ha : a.id = sid
    · rw [updateFirstSession, if_pos ha, findSession, findSession]
      have : (f a).id = a.id := hid a
      by_cases ha2 : a.id = sid2
      · exact absurd (ha2.symm.trans ha) hne
      · rw [if_neg (by rw [this]; exact ha2), if_neg ha2]
    · rw [updateFirstSession, if_neg ha, findSession, findSession]
      by_cases ha2 : a.id = sid2
      · rw [if_pos ha2, if_pos ha2]
      · rw [if_neg ha2, if_neg ha2]
        exact ih

/-! ### Basic lemmas about the tab-list helpers -/

theorem findTab_mem {l : List TabEntry} {tid : Nat} {e : TabEntry}
    (h : findTab l tid = some e) : e ∈ l ∧ e.tabId = tid := by
  induction l with
  | nil => simp [findTab] at h
  | cons a rest ih =>
    by_cases ha : a.tabId = tid
    · rw [findTab, if_pos ha] at h
      cases h
      exact ⟨List.mem_cons_self _ _, ha⟩
    · rw [findTab, if_neg ha] at h
      have := ih h
      exact ⟨List.mem_cons_of_mem a this.1, this.2⟩

theorem findTab_filter_ne (l : List TabEntry) (tid : Nat) :
    findTab (l.filter (fun t => t.tabId != tid)) tid = none := by
  induction l with
  | nil => rfl
  | cons a rest ih =>
    by_cases ha : a.tabId = tid
    · simpa [List.filter_cons, ha] using ih
    · have hkeep : (a.tabId != tid) = true := by simpa using ha
      simp only [List.filter_cons, hkeep, if_pos, findTab, if_neg ha]
      exact ih

theorem updateFirstTabBy_decomp {l : List TabEntry} {tid : Nat} {e : TabEntry}
    (f : TabEntry → TabEntry) (h : findTab l tid = some e) :
    ∃ pre post, l = pre ++ e :: post ∧
      updateFirstTabBy tid f l = pre ++ f e :: post ∧
      ∀ x ∈ pre, x.tabId ≠ tid := by
  induction l with
  | nil => simp [findTab] at h
  | cons a rest ih =>
    by_cases ha : a.tabId = tid
    · rw [findTab, if_pos ha] at h
      cases h
      exact ⟨[], rest, rfl, by rw [updateFirstTabBy, if_pos ha]; rfl, by simp⟩
    · rw [findTab, if_neg ha] at h
      obtain ⟨pre, post, h1, h2, h3⟩ := ih h
      refine ⟨a :: pre, post, by rw [h1]; rfl, ?_, ?_⟩
      · rw [updateFirstTabBy, if_neg ha, h2]; rfl
      · intro x hx
        rcases List.mem_cons.mp hx with hx | hx
        · subst hx; exact ha
        · exact h3 x hx

theorem replaceFirstTab_length (p : TabEntry → Bool) (e : TabEntry) (l : List TabEntry) :
    (replaceFirstTab p e l).length = l.length := by
  induction l with
  | nil => rfl
  | cons a rest ih =>
    rw [replaceFirstTab]
    by_cases ha : p a
    · rw [if_pos ha]; rfl
    · rw [if_neg ha]; simpa using ih

theorem replaceFirstTab_idem (p : TabEntry → Bool) (e : TabEntry) (l : List TabEntry)
    (hpe : p e = true) :
    replaceFirstTab p e (replaceFirstTab p e l) = replaceFirstTab p e l := by
  induction l with
  | nil => rfl
  | cons a rest ih =>
    by_cases ha : p a
    · rw [replaceFirstTab, if_pos ha, replaceFirstTab, if_pos hpe]
    · rw [replaceFirstTab, if_neg ha, replaceFirstTab, if_neg ha, ih]

theorem replaceFirstTab_of_any_false (p q : TabEntry → Bool) (e : TabEntry)
    (l : List TabEntry) (hl : l.any p = false) (hpe : p e = true) :
    replaceFirstTab p e (replaceFirstTab q e l) = replaceFirstTab q e l := by
  induction l with
  | nil => rfl
  | cons a rest ih =>
    have hpa : p a = false := by
      have := List.any_eq_false.mp hl a (List.mem_cons_self _ _)
      simpa using this
    have hrest : rest.any p = false := by
      rw [List.any_eq_false]
      intro x hx
      exact List.any_eq_false.mp hl x (List.mem_cons_of_mem a hx)
    by_cases hq : q a
    · rw [replaceFirstTab, if_pos hq, replaceFirstTab, if_pos hpe]
    · rw [replaceFirstTab, if_neg hq, replaceFirstTab, if_neg (by simp [hpa]), ih hrest]

theorem replaceFirstTab_append_self (p : TabEntry → Bool) (e : TabEntry)
    (l : List TabEntry) (hl : l.any p = false) (hpe : p e = true) :
    replaceFirstTab p e (l ++ [e]) = l ++ [e] := by
  induction l with
  | nil => simp [replaceFirstTab, hpe]
  | cons a rest ih =>
    have hpa : p a = false := by
      have := List.any_eq_false.mp hl a (List.mem_cons_self _ _)
      simpa using this
    have hrest : rest.any p = false := by
      rw [List.any_eq_false]
      intro x hx
      exact List.any_eq_false.mp hl x (List.mem_cons_of_mem a hx)
    rw [List.cons_append, replaceFirstTab, if_neg (by simp [hpa]), ih hrest]

theorem any_replaceFirstTab (p q : TabEntry → Bool) (e : TabEntry) (l : List TabEntry)
    (hpe : p e = true) (hq : l.any q = true) :
    (replaceFirstTab q e l).any p = true := by
  induction l with
  | nil => simp at hq
  | cons a rest ih =>
    by_cases hqa : q a
    · rw [replaceFirstTab, if_pos hqa]
      simp [hpe]
    · have hrest : rest.any q = true := by
        rw [List.any_cons] at hq
        simpa [hqa] using hq
      rw [replaceFirstTab, if_neg hqa, List.any_cons, ih hrest]
      simp

theorem updateFirstSession_eq_self {l : List Session} {sid : String} {s : Session}
    (f : Session → Session) (h : findSession l sid = some s) (hf : f s = s) :
    updateFirstSession l sid f = l := by
  induction l with
  | nil => rfl
  | cons a rest ih =>
    by_cases ha : a.id = sid
    · rw [findSession, if_pos ha] at h
      cases h
      rw [updateFirstSession, if_pos ha, hf]
    · rw [findSession, if_neg ha] at h
      rw [updateFirstSession, if_neg ha, ih h]

/-! ### Claim theorems -/

/-- C10: `deleteSession` removes every session with the id from the sessions
list; if the deleted id equals the stored `currentSessionId` it resets both
the stored and the in-memory pointer to null, so deletion never leaves the
stored pointer dangling; deleting a non-current session leaves the pointer
(stored and in-memory) unchanged. -/
theorem deleteSession_spec (st : MgrState) (storage : Storage) (sid : String) :
    (deleteSession st storage sid).2.sessions
        = storage.sessions.filter (fun s => s.id != sid) ∧
    (storage.currentSessionId = some sid →
      (deleteSession st storage sid).2.currentSessionId = none ∧
      (deleteSession st storage sid).1.currentSessionId = none) ∧
    (storage.currentSessionId ≠ some sid →
      (deleteSession st storage sid).2.currentSessionId = storage.currentSessionId ∧
      (deleteSession st storage sid).1 = st) ∧
    ((∀ c, storage.currentSessionId = some c → ∃ s ∈ storage.sessions, s.id = c) →
      ∀ c, (deleteSession st storage sid).2.currentSessionId = some c →
        ∃ s ∈ (deleteSession st storage sid).2.sessions, s.id = c) := by
  by_cases hcur : storage.currentSessionId = some sid
  · refine ⟨by simp [deleteSession, hcur], fun _ => by simp [deleteSession, hcur],
      fun hne => absurd hcur hne, fun hinv c hc => ?_⟩
    simp [deleteSession, hcur] at hc
  · refine ⟨by simp [deleteSession, hcur], fun heq => absurd heq hcur,
      fun _ => by simp [deleteSession, hcur], fun hinv c hc => ?_⟩
    simp only [deleteSession, if_neg hcur] at hc ⊢
    obtain ⟨s, hs, hsid⟩ := hinv c hc
    have hcne : c ≠ sid := by
      intro h
      exact hcur (by rw [← h]; exact hc)
    refine ⟨s, List.mem_filter.mpr ⟨hs, ?_⟩, hsid⟩
    simp [hsid, hcne]

/-- C10 witness: deleting the current session clears the stored pointer and
removes the session; deleting a non-current session keeps the pointer. -/
theorem deleteSession_spec_witness :
    (deleteSession ⟨some "a", 7⟩ ⟨[⟨"a", "", 0, 0, [], [], none⟩], some "a"⟩ "a").2.sessions
        = [] ∧
    (deleteSession ⟨some "a", 7⟩ ⟨[⟨"a", "", 0, 0, [], [], none⟩], some "a"⟩ "a").2.currentSessionId
        = none ∧
    (deleteSession ⟨some "a", 7⟩ ⟨[⟨"a", "", 0, 0, [], [], none⟩], some "a"⟩ "b").2.currentSessionId
        = some "a" := by
  have h1 := deleteSession_spec ⟨some "a", 7⟩ ⟨[⟨"a", "", 0, 0, [], [], none⟩], some "a"⟩ "a"
  have h2 := deleteSession_spec ⟨some "a", 7⟩ ⟨[⟨"a", "", 0, 0, [], [], none⟩], some "a"⟩ "b"
  refine ⟨?_, (h1.2.1 rfl).1, ?_⟩
  · rw [h1.1]; decide
  · rw [(h2.2.2.1 (by decide)).1]

theorem findTab_append {pre post : List TabEntry} {x : TabEntry} {tid : Nat}
    (hpre : ∀ y ∈ pre, y.tabId ≠ tid) (hx : x.tabId = tid) :
    findTab (pre ++ x :: post) tid = some x := by
  induction pre with
  | nil => simp [findTab, hx]
  | cons a rest ih =>
    rw [List.cons_append, findTab, if_neg (hpre a (List.mem_cons_self _ _))]
    exact ih (fun y hy => hpre y (List.mem_cons_of_mem a hy))

/-- C5 counterexample: with `currentSessionId` pointing at a session id that
is not in storage, `updateTabInSession` throws `'Current session not found'`
(line 191) instead of silently no-opping as the claim states. -/
theorem updateTab_missing_session_throws :
    updateTabInSession ⟨some "ghost", 0⟩ ⟨[], some "ghost"⟩ 5 1 ⟨none, none, none⟩
      = Except.error "Current session not found" := by rfl

/-- C5 (amended): when the current session id does not resolve (null pointer
or missing session), `updateTabInSession` throws `'Current session not
found'`; only a missing tab entry inside an existing current session is a
silent no-op that leaves the stored record unchanged. -/
theorem updateTab_missing_spec (st : MgrState) (storage : Storage) (now tid : Nat)
    (p : PartialTab) :
    (st.currentSessionId = none →
      updateTabInSession st storage now tid p = Except.error "Current session not found") ∧
    (∀ sid, st.currentSessionId = some sid → findSession storage.sessions sid = none →
      updateTabInSession st storage now tid p = Except.error "Current session not found") ∧
    (∀ sid s, st.currentSessionId = some sid → findSession storage.sessions sid = some s →
      findTab s.tabs tid = none →
      updateTabInSession st storage now tid p = Except.ok storage) := by
  refine ⟨fun h => by simp [updateTabInSession, h],
    fun sid h hf => by simp [updateTabInSession, h, hf],
    fun sid s h hf hft => by simp [updateTabInSession, h, hf, hft]⟩

/-- C5 witness: the null-pointer case throws; the missing-tab-entry case
returns the storage record unchanged. -/
theorem updateTab_missing_spec_witness :
    updateTabInSession ⟨none, 0⟩ ⟨[], none⟩ 5 1 ⟨none, none, none⟩
      = Except.error "Current session not found" ∧
    updateTabInSession ⟨some "s1", 0⟩ ⟨[⟨"s1", "", 0, 0, [], [], none⟩], some "s1"⟩ 5 1
        ⟨none, none, none⟩
      = Except.ok ⟨[⟨"s1", "", 0, 0, [], [], none⟩], some "s1"⟩ := by
  have h1 := updateTab_missing_spec ⟨none, 0⟩ ⟨[], none⟩ 5 1 ⟨none, none, none⟩
  have h2 := updateTab_missing_spec ⟨some "s1", 0⟩
    ⟨[⟨"s1", "", 0, 0, [], [], none⟩], some "s1"⟩ 5 1 ⟨none, none, none⟩
  exact ⟨h1.1 rfl, h2.2.2 "s1" ⟨"s1", "", 0, 0, [], [], none⟩ rfl (by rfl) (by rfl)⟩

/-- C6 counterexample: updating with a partial tab that provides `title` but
no `url` clears the stored entry's url (the merge writes `url: tab.url`
unconditionally, line 199), so a non-provided `url` does not survive. -/
theorem updateTab_url_clobbered :
    updateTabInSession ⟨some "s1", 0⟩
        ⟨[⟨"s1", "", 0, 0, [⟨"t1", 1, 1, some "https://a.test/", "A", 0, "", none⟩], [],
            none⟩], some "s1"⟩
        9 1 ⟨none, some "T", none⟩
      = Except.ok ⟨[⟨"s1", "", 0, 9, [⟨"t1", 1, 1, none, "T", 9, "", none⟩], [],
            none⟩], some "s1"⟩ := by rfl

/-- C6 (amended): for a tab entry present in the current session,
`updateTabInSession` writes `url` unconditionally from the partial tab
(clearing it when not provided), merges `title` and `favicon` only when
provided, keeps `id`, `tabId` and `windowId`, refreshes `timestamp` to
`now`, bumps the session's `modified`, and leaves the entry at its position
in the same session. -/
theorem updateTab_merge_spec (st : MgrState) (storage : Storage) (now tid : Nat)
    (p : PartialTab) (sid : String) (s : Session) (e : TabEntry)
    (h1 : st.currentSessionId = some sid)
    (h2 : findSession storage.sessions sid = some s)
    (h3 : findTab s.tabs tid = some e) :
    ∃ storage2, updateTabInSession st storage now tid p = Except.ok storage2 ∧
    ∃ s2, findSession storage2.sessions sid = some s2 ∧
      s2.modified = now ∧
      s2.id = s.id ∧
      s2.closedTabs = s.closedTabs ∧
      s2.tabs = updateFirstTabBy tid (mergeTab now p) s.tabs ∧
      findTab s2.tabs tid = some (mergeTab now p e) ∧
      (mergeTab now p e).tabId = e.tabId ∧
      (mergeTab now p e).id = e.id ∧
      (mergeTab now p e).windowId = e.windowId ∧
      (mergeTab now p e).url = p.url ∧
      (mergeTab now p e).title = p.title.getD e.title ∧
      (mergeTab now p e).favicon = p.favIconUrl.getD e.favicon ∧
      (mergeTab now p e).timestamp = now ∧
      ∃ pre post, s.tabs = pre ++ e :: post ∧
        s2.tabs = pre ++ mergeTab now p e :: post := by
  obtain ⟨pre, post, hdec, hupd, hpre⟩ := updateFirstTabBy_decomp (mergeTab now p) h3
  have hetid : e.tabId = tid := (findTab_mem h3).2
  have hok : updateTabInSession st storage now tid p = Except.ok
      { storage with sessions := updateFirstSession storage.sessions sid (fun t =>
          { t with tabs := updateFirstTabBy tid (mergeTab now p) t.tabs, modified := now }) } := by
    simp [updateTabInSession, h1, h2, h3]
  refine ⟨_, hok, ?_⟩
  refine ⟨_, findSession_updateFirstSession_self _ h2 rfl, rfl, rfl, rfl, rfl, ?_, rfl, rfl,
    rfl, rfl, rfl, rfl, rfl, pre, post, hdec, ?_⟩
  · show findTab (updateFirstTabBy tid (mergeTab now p) s.tabs) tid = _
    rw [hupd]
    exact findTab_append hpre (by simp [mergeTab, hetid])
  · exact hupd

/-- C6 witness: a concrete update through the amended merge semantics. -/
theorem updateTab_merge_spec_witness :
    ∃ storage2, updateTabInSession ⟨some "s1", 0⟩
        ⟨[⟨"s1", "", 0, 0, [⟨"t1", 1, 1, some "https://a.test/", "A", 0, "", none⟩], [],
            none⟩], some "s1"⟩
        9 1 ⟨some "https://b.test/", some "B", none⟩ = Except.ok storage2 ∧
    ∃ s2, findSession storage2.sessions "s1" = some s2 ∧ s2.modified = 9 ∧
      findTab s2.tabs 1
        = some ⟨"t1", 1, 1, some "https://b.test/", "B", 9, "", none⟩ := by
  obtain ⟨storage2, hok, s2, hfind, hmod, _, _, _, htab, _⟩ :=
    updateTab_merge_spec ⟨some "s1", 0⟩
      ⟨[⟨"s1", "", 0, 0, [⟨"t1", 1, 1, some "https://a.test/", "A", 0, "", none⟩], [],
          none⟩], some "s1"⟩
      9 1 ⟨some "https://b.test/", some "B", none⟩ "s1"
      ⟨"s1", "", 0, 0, [⟨"t1", 1, 1, some "https://a.test/", "A", 0, "", none⟩], [], none⟩
      ⟨"t1", 1, 1, some "https://a.test/", "A", 0, "", none⟩ rfl (by rfl) (by rfl)
  exact ⟨storage2, hok, s2, hfind, hmod, htab⟩

/-- C4: `switchToSession` and `restoreSession` report `NotFound` when the id
does not resolve; when it resolves but equals the current session id both
report `AlreadyActive`; `restoreSession` additionally reports `EmptySession`
for a session with no tabs; on success `restoreSession` returns a tab list
equal to the stored session's tabs and leaves the stored session's `tabs`
and `closedTabs` unchanged (no clear-then-repopulate). -/
theorem switch_restore_validation_spec (st : MgrState) (storage : Storage) (now : Nat)
    (sid : String) :
    (findSession storage.sessions sid = none →
      switchToSession st storage now sid = Except.error (SessionError.notFound sid) ∧
      restoreSession st storage now sid = Except.error (SessionError.notFound sid)) ∧
    (∀ s, findSession storage.sessions sid = some s → st.currentSessionId = some sid →
      switchToSession st storage now sid = Except.error (SessionError.alreadyActive sid) ∧
      restoreSession st storage now sid = Except.error (SessionError.alreadyActive sid)) ∧
    (∀ s, findSession storage.sessions sid = some s → st.currentSessionId ≠ some sid →
      s.tabs = [] →
      restoreSession st storage now sid = Except.error (SessionError.emptySession sid)) ∧
    (∀ s, findSession storage.sessions sid = some s → st.currentSessionId ≠ some sid →
      s.tabs ≠ [] →
      ∃ st2 storage2 r, restoreSession st storage now sid = Except.ok (st2, storage2, r) ∧
        r.tabs = s.tabs ∧ r.sessionId = s.id ∧ r.created = s.created ∧ r.modified = now ∧
        st2.currentSessionId = some sid ∧ storage2.currentSessionId = some sid ∧
        ∃ s2, findSession storage2.sessions sid = some s2 ∧
          s2.tabs = s.tabs ∧ s2.closedTabs = s.closedTabs ∧ s2.modified = now) := by
  refine ⟨fun hf => ⟨by simp [switchToSession, hf], by simp [restoreSession, hf]⟩,
    fun s hf hcur => ⟨by simp [switchToSession, hf, hcur], by simp [restoreSession, hf, hcur]⟩,
    fun s hf hcur htabs => by simp [restoreSession, hf, hcur, htabs],
    fun s hf hcur htabs => ?_⟩
  have hne : s.tabs.isEmpty = false := by
    cases hx : s.tabs with
    | nil => exact absurd hx htabs
    | cons a l => rfl
  have hok : restoreSession st storage now sid = Except.ok
      ({ st with currentSessionId := some sid },
       { sessions := updateFirstSession storage.sessions sid (fun t =>
           { t with modified := now, name := stripClosedName t.name })
         currentSessionId := some sid },
       { sessionId := s.id
         tabs := s.tabs
         name := stripClosedName s.name
         created := s.created
         modified := now }) := by
    simp [restoreSession, hf, hcur, hne]
  exact ⟨_, _, _, hok, rfl, rfl, rfl, rfl, rfl, rfl, _,
    findSession_updateFirstSession_self _ hf rfl, rfl, rfl, rfl⟩

/-- C4 witness: a missing id yields `NotFound`; restoring the current id
yields `AlreadyActive`; restoring an empty non-current session yields
`EmptySession`; restoring a non-current session with a tab succeeds and
returns its tab list. -/
theorem switch_restore_validation_spec_witness :
    switchToSession ⟨none, 0⟩ ⟨[], none⟩ 3 "zz" = Except.error (SessionError.notFound "zz") ∧
    restoreSession ⟨some "a", 0⟩
        ⟨[⟨"a", "", 0, 0, [⟨"t", 1, 1, some "u", "T", 0, "", none⟩], [], none⟩], some "a"⟩
        3 "a" = Except.error (SessionError.alreadyActive "a") ∧
    restoreSession ⟨none, 0⟩ ⟨[⟨"a", "", 0, 0, [], [], none⟩], none⟩ 3 "a"
      = Except.error (SessionError.emptySession "a") ∧
    ∃ st2 storage2 r, restoreSession ⟨none, 0⟩
        ⟨[⟨"a", "", 0, 0, [⟨"t", 1, 1, some "u", "T", 0, "", none⟩], [], none⟩], none⟩
        3 "a" = Except.ok (st2, storage2, r) ∧
      r.tabs = [⟨"t", 1, 1, some "u", "T", 0, "", none⟩] := by
  have h1 := (switch_restore_validation_spec ⟨none, 0⟩ ⟨[], none⟩ 3 "zz").1 (by rfl)
  have h2 := ((switch_restore_validation_spec ⟨some "a", 0⟩
    ⟨[⟨"a", "", 0, 0, [⟨"t", 1, 1, some "u", "T", 0, "", none⟩], [], none⟩], some "a"⟩
    3 "a").2.1 ⟨"a", "", 0, 0, [⟨"t", 1, 1, some "u", "T", 0, "", none⟩], [], none⟩
    (by rfl) rfl).2
  have h3 := (switch_restore_validation_spec ⟨none, 0⟩
    ⟨[⟨"a", "", 0, 0, [], [], none⟩], none⟩ 3 "a").2.2.1
    ⟨"a", "", 0, 0, [], [], none⟩ (by rfl) (by simp) rfl
  obtain ⟨st2, storage2, r, hok, htabs, _⟩ := (switch_restore_validation_spec ⟨none, 0⟩
    ⟨[⟨"a", "", 0, 0, [⟨"t", 1, 1, some "u", "T", 0, "", none⟩], [], none⟩], none⟩
    3 "a").2.2.2 ⟨"a", "", 0, 0, [⟨"t", 1, 1, some "u", "T", 0, "", none⟩], [], none⟩
    (by rfl) (by simp) (by simp)
  exact ⟨h1.1, h2, h3, st2, storage2, r, hok, htabs⟩

/-- C8: `closeSession` sets the target session's status to `"closed"` and
`manualSaveSession` sets the current session's status to `"saved"`; both
bump `modified`, both clear `currentSessionId` (stored and in-memory) when
the affected session is the current one, and both leave the session's
`tabs` and `closedTabs` unchanged. -/
theorem close_manualSave_spec (st : MgrState) (storage : Storage) (now : Nat)
    (sid : String) :
    (∀ s, findSession storage.sessions sid = some s →
      (∃ s2, findSession (closeSession st storage now sid).2.sessions sid = some s2 ∧
        s2.status = some "closed" ∧ s2.modified = now ∧ s2.tabs = s.tabs ∧
        s2.closedTabs = s.closedTabs ∧ s2.id = s.id ∧ s2.name = s.name ∧
        s2.created = s.created) ∧
      (st.currentSessionId = some sid →
        (closeSession st storage now sid).1.currentSessionId = none ∧
        (closeSession st storage now sid).2.currentSessionId = none) ∧
      (st.currentSessionId ≠ some sid →
        (closeSession st storage now sid).1 = st ∧
        (closeSession st storage now sid).2.currentSessionId = storage.currentSessionId)) ∧
    (∀ s, st.currentSessionId = some sid → findSession storage.sessions sid = some s →
      (∃ s2, findSession (manualSaveSession st storage now).2.sessions sid = some s2 ∧
        s2.status = some "saved" ∧ s2.modified = now ∧ s2.tabs = s.tabs ∧
        s2.closedTabs = s.closedTabs ∧ s2.id = s.id) ∧
      (manualSaveSession st storage now).1.currentSessionId = none ∧
      (manualSaveSession st storage now).2.currentSessionId = none) := by
  constructor
  · intro s hf
    refine ⟨?_, ?_, ?_⟩
    · by_cases hcur : st.currentSessionId = some sid
      · refine ⟨{ s with status := some "closed", modified := now },
          ?_, rfl, rfl, rfl, rfl, rfl, rfl, rfl⟩
        show findSession (closeSession st storage now sid).2.sessions sid = _
        simp only [closeSession, hf, if_pos hcur]
        exact findSession_updateFirstSession_self _ hf rfl
      · refine ⟨{ s with status := some "closed", modified := now },
          ?_, rfl, rfl, rfl, rfl, rfl, rfl, rfl⟩
        show findSession (closeSession st storage now sid).2.sessions sid = _
        simp only [closeSession, hf, if_neg hcur]
        exact findSession_updateFirstSession_self _ hf rfl
    · intro hcur
      simp [closeSession, hf, hcur]
    · intro hcur
      simp [closeSession, hf, hcur]
  · intro s hcur hf
    refine ⟨⟨{ s with status := some "saved", modified := now },
      ?_, rfl, rfl, rfl, rfl, rfl⟩, ?_, ?_⟩
    · show findSession (manualSaveSession st storage now).2.sessions sid = _
      simp only [manualSaveSession, hcur, hf]
      exact findSession_updateFirstSession_self _ hf rfl
    · simp [manualSaveSession, hcur, hf]
    · simp [manualSaveSession, hcur, hf]

/-- C8 witness: closing the current session marks it closed, clears both
pointers and keeps its tab data; manually saving marks it saved. -/
theorem close_manualSave_spec_witness :
    (∃ s2, findSession (closeSession ⟨some "a", 0⟩
        ⟨[⟨"a", "n", 1, 2, [⟨"t", 1, 1, some "u", "T", 0, "", none⟩], [], none⟩], some "a"⟩
        9 "a").2.sessions "a" = some s2 ∧
      s2.status = some "closed" ∧ s2.tabs = [⟨"t", 1, 1, some "u", "T", 0, "", none⟩]) ∧
    (closeSession ⟨some "a", 0⟩
        ⟨[⟨"a", "n", 1, 2, [⟨"t", 1, 1, some "u", "T", 0, "", none⟩], [], none⟩], some "a"⟩
        9 "a").2.currentSessionId = none ∧
    (∃ s2, findSession (manualSaveSession ⟨some "a", 0⟩
        ⟨[⟨"a", "n", 1, 2, [⟨"t", 1, 1, some "u", "T", 0, "", none⟩], [], none⟩], some "a"⟩
        9).2.sessions "a" = some s2 ∧ s2.status = some "saved") := by
  have h := close_manualSave_spec ⟨some "a", 0⟩
    ⟨[⟨"a", "n", 1, 2, [⟨"t", 1, 1, some "u", "T", 0, "", none⟩], [], none⟩], some "a"⟩ 9 "a"
  obtain ⟨⟨s2, hfind, hst, hmod, htabs, _⟩, hptr, _⟩ :=
    h.1 ⟨"a", "n", 1, 2, [⟨"t", 1, 1, some "u", "T", 0, "", none⟩], [], none⟩ (by rfl)
  obtain ⟨⟨s3, hfind3, hst3, _⟩, _, _⟩ :=
    h.2 ⟨"a", "n", 1, 2, [⟨"t", 1, 1, some "u", "T", 0, "", none⟩], [], none⟩ rfl (by rfl)
  exact ⟨⟨s2, hfind, hst, by rw [htabs]⟩, (hptr rfl).2, s3, hfind3, hst3⟩

/-- C3: for a current session containing an entry with the `tabId`,
`moveTabToClosedTabs` removes the entry from `tabs`, stamps `closedAt` with
the current time, prepends it to `closedTabs` (newest-first) truncated to
`MAX_CLOSED_TABS` (so after more than `MAX_CLOSED_TABS` closures the list
has exactly `MAX_CLOSED_TABS` entries, the most recent ones), and a second
call with the same `tabId` is a no-op that leaves exactly one `closedTabs`
entry for the tab. -/
theorem moveTab_spec (cfg : Config) (st : MgrState) (storage : Storage) (now tid : Nat)
    (sid : String) (s : Session) (e : TabEntry)
    (h1 : st.currentSessionId = some sid)
    (h2 : findSession storage.sessions sid = some s)
    (h3 : findTab s.tabs tid = some e) :
    ∃ s2, findSession (moveTabToClosedTabs cfg st storage now tid).sessions sid = some s2 ∧
      s2.tabs = s.tabs.filter (fun t => t.tabId != tid) ∧
      findTab s2.tabs tid = none ∧
      s2.closedTabs = (stampClosed now e :: s.closedTabs).take cfg.MAX_CLOSED_TABS ∧
      (stampClosed now e).closedAt = some now ∧
      s2.closedTabs.length = min (s.closedTabs.length + 1) cfg.MAX_CLOSED_TABS ∧
      (cfg.MAX_CLOSED_TABS ≤ s.closedTabs.length →
        s2.closedTabs.length = cfg.MAX_CLOSED_TABS) ∧
      (0 < cfg.MAX_CLOSED_TABS → s2.closedTabs.head? = some (stampClosed now e)) ∧
      (0 < cfg.MAX_CLOSED_TABS → s.closedTabs.countP (fun x => x.tabId == tid) = 0 →
        s2.closedTabs.countP (fun x => x.tabId == tid) = 1) ∧
      s2.modified = now ∧
      (∀ now2, moveTabToClosedTabs cfg st (moveTabToClosedTabs cfg st storage now tid) now2 tid
        = moveTabToClosedTabs cfg st storage now tid) := by
  have hetid : e.tabId = tid := (findTab_mem h3).2
  have hct : (if (stampClosed now e :: s.closedTabs).length > cfg.MAX_CLOSED_TABS
        then (stampClosed now e :: s.closedTabs).take cfg.MAX_CLOSED_TABS
        else stampClosed now e :: s.closedTabs)
      = (stampClosed now e :: s.closedTabs).take cfg.MAX_CLOSED_TABS := by
    by_cases hlen : (stampClosed now e :: s.closedTabs).length > cfg.MAX_CLOSED_TABS
    · rw [if_pos hlen]
    · rw [if_neg hlen, List.take_of_length_le (by omega)]
  have hres : moveTabToClosedTabs cfg st storage now tid =
      { storage with sessions := updateFirstSession storage.sessions sid (fun t =>
          { t with tabs := t.tabs.filter (fun x => x.tabId != tid)
                   closedTabs := (stampClosed now e :: s.closedTabs).take cfg.MAX_CLOSED_TABS
                   modified := now }) } := by
    simp only [moveTabToClosedTabs, h1, h2, h3, hct]
  set s2 : Session :=
    { s with tabs := s.tabs.filter (fun x => x.tabId != tid)
             closedTabs := (stampClosed now e :: s.closedTabs).take cfg.MAX_CLOSED_TABS
             modified := now } with hs2
  have hfindR : findSession (moveTabToClosedTabs cfg st storage now tid).sessions sid
      = some s2 := by
    rw [hres]
    exact findSession_updateFirstSession_self _ h2 rfl
  have hftnone : findTab s2.tabs tid = none := findTab_filter_ne s.tabs tid
  refine ⟨s2, hfindR, rfl, hftnone, rfl, rfl, ?_, ?_, ?_, ?_, rfl, ?_⟩
  · show ((stampClosed now e :: s.closedTabs).take cfg.MAX_CLOSED_TABS).length = _
    simp [List.length_take]
    omega
  · intro hle
    show ((stampClosed now e :: s.closedTabs).take cfg.MAX_CLOSED_TABS).length = _
    simp [List.length_take]
    omega
  · intro hpos
    obtain ⟨m, hm⟩ : ∃ m, cfg.MAX_CLOSED_TABS = m + 1 := ⟨cfg.MAX_CLOSED_TABS - 1, by omega⟩
    show ((stampClosed now e :: s.closedTabs).take cfg.MAX_CLOSED_TABS).head? = _
    rw [hm, List.take_succ_cons]
    rfl
  · intro hpos hzero
    obtain ⟨m, hm⟩ : ∃ m, cfg.MAX_CLOSED_TABS = m + 1 := ⟨cfg.MAX_CLOSED_TABS - 1, by omega⟩
    show ((stampClosed now e :: s.closedTabs).take cfg.MAX_CLOSED_TABS).countP
        (fun x => x.tabId == tid) = 1
    rw [hm, List.take_succ_cons]
    have hstamp : ((stampClosed now e).tabId == tid) = true := by
      simp [stampClosed, hetid]
    rw [List.countP_cons]
    simp only [hstamp, if_pos]
    have hsub : (s.closedTabs.take m).countP (fun x => x.tabId == tid)
        ≤ s.closedTabs.countP (fun x => x.tabId == tid) :=
      (List.take_sublist m s.closedTabs).countP_le _
    omega
  · intro now2
    generalize hR : moveTabToClosedTabs cfg st storage now tid = R at hfindR hftnone ⊢
    simp [moveTabToClosedTabs, h1, hfindR, hftnone]

/-- C3 witness: with `MAX_CLOSED_TABS = 2` and one already-closed tab,
closing tab 1 removes it from `tabs`, prepends the stamped entry, keeps the
bound, and a second close is a no-op. -/
theorem moveTab_spec_witness :
    ∃ s2, findSession (moveTabToClosedTabs ⟨50, 2⟩ ⟨some "a", 0⟩
        ⟨[⟨"a", "", 0, 0,
            [⟨"t1", 1, 1, some "u1", "A", 0, "", none⟩,
             ⟨"t2", 2, 1, some "u2", "B", 0, "", none⟩],
            [⟨"t0", 9, 1, some "u0", "Z", 0, "", some 1⟩,
             ⟨"t9", 8, 1, some "u9", "Y", 0, "", some 0⟩], none⟩], some "a"⟩
        7 1).sessions "a" = some s2 ∧
      s2.tabs = [⟨"t2", 2, 1, some "u2", "B", 0, "", none⟩] ∧
      s2.closedTabs.length = 2 ∧
      s2.closedTabs.head? = some ⟨"t1", 1, 1, some "u1", "A", 0, "", some 7⟩ := by
  obtain ⟨s2, hfind, htabs, _, hct, _, hlen, _, hhead, _⟩ :=
    moveTab_spec ⟨50, 2⟩ ⟨some "a", 0⟩
      ⟨[⟨"a", "", 0, 0,
          [⟨"t1", 1, 1, some "u1", "A", 0, "", none⟩,
           ⟨"t2", 2, 1, some "u2", "B", 0, "", none⟩],
          [⟨"t0", 9, 1, some "u0", "Z", 0, "", some 1⟩,
           ⟨"t9", 8, 1, some "u9", "Y", 0, "", some 0⟩], none⟩], some "a"⟩
      7 1 "a"
      ⟨"a", "", 0, 0,
        [⟨"t1", 1, 1, some "u1", "A", 0, "", none⟩,
         ⟨"t2", 2, 1, some "u2", "B", 0, "", none⟩],
        [⟨"t0", 9, 1, some "u0", "Z", 0, "", some 1⟩,
         ⟨"t9", 8, 1, some "u9", "Y", 0, "", some 0⟩], none⟩
      ⟨"t1", 1, 1, some "u1", "A", 0, "", none⟩ rfl (by rfl) (by rfl)
  refine ⟨s2, hfind, by rw [htabs]; rfl, ?_, ?_⟩
  · rw [hlen]; rfl
  · rw [hhead (by decide)]; rfl

theorem addTab_second_call (cfg : Config) (st : MgrState) (storage1 : Storage)
    (now : Nat) (allTabs : List BrowserTab) (tab : BrowserTab) (sid : String)
    (s1 : Session)
    (h1 : st.currentSessionId = some sid)
    (hfind1 : findSession storage1.sessions sid = some s1)
    (hany1 : s1.tabs.any (fun t => t.tabId == tab.id) = true)
    (hrf : replaceFirstTab (fun t => t.tabId == tab.id) (mkTabEntry now tab) s1.tabs = s1.tabs)
    (hmod : s1.modified = now) :
    addTabToSession cfg st storage1 now allTabs tab = Except.ok (st, storage1) := by
  have hfix : ({ s1 with
      tabs := replaceFirstTab (fun t => t.tabId == tab.id) (mkTabEntry now tab) s1.tabs
      modified := now } : Session) = s1 := by
    rw [hrf]
    cases s1 with
    | mk id name created modified tabs closedTabs status =>
      simp only at hmod
      simp [hmod]
  have hupd := @updateFirstSession_eq_self storage1.sessions sid s1
    (fun t => { t with
      tabs := replaceFirstTab (fun x => x.tabId == tab.id) (mkTabEntry now tab) s1.tabs
      modified := now }) hfind1 hfix
  simp only [addTabToSession, h1, hfind1, hany1, if_pos]
  rw [hupd]

/-- C7: with a resolving current session, `addTabToSession` deduplicates by
`tabId` first, then by `url`, appending only when neither matches, so the
tab count grows by exactly one iff no entry matches; a fresh tab ends with
exactly one entry carrying its `tabId`; and the operation is idempotent
under retry: repeating the call with the same tab returns the same state. -/
theorem addTab_spec (cfg : Config) (st : MgrState) (storage : Storage) (now : Nat)
    (allTabs : List BrowserTab) (tab : BrowserTab) (sid : String) (s : Session)
    (h1 : st.currentSessionId = some sid)
    (h2 : findSession storage.sessions sid = some s) :
    ∃ storage1, addTabToSession cfg st storage now allTabs tab = Except.ok (st, storage1) ∧
    ∃ s1, findSession storage1.sessions sid = some s1 ∧
      s1.modified = now ∧ s1.id = s.id ∧ s1.closedTabs = s.closedTabs ∧
      (s1.tabs.length = if s.tabs.any (fun t => t.tabId == tab.id)
            || s.tabs.any (fun t => t.url == some tab.url)
          then s.tabs.length else s.tabs.length + 1) ∧
      (s.tabs.any (fun t => t.tabId == tab.id) = true →
        s1.tabs = replaceFirstTab (fun t => t.tabId == tab.id) (mkTabEntry now tab) s.tabs) ∧
      (s.tabs.any (fun t => t.tabId == tab.id) = false →
        s.tabs.any (fun t => t.url == some tab.url) = true →
        s1.tabs = replaceFirstTab (fun t => t.url == some tab.url) (mkTabEntry now tab) s.tabs) ∧
      (s.tabs.any (fun t => t.tabId == tab.id) = false →
        s.tabs.any (fun t => t.url == some tab.url) = false →
        s1.tabs = s.tabs ++ [mkTabEntry now tab] ∧
        s1.tabs.countP (fun t => t.tabId == tab.id) = 1) ∧
      addTabToSession cfg st storage1 now allTabs tab = Except.ok (st, storage1) := by
  have hentry : ((mkTabEntry now tab).tabId == tab.id) = true := by simp [mkTabEntry]
  by_cases hA : s.tabs.any (fun t => t.tabId == tab.id) = true
  · have hok : addTabToSession cfg st storage now allTabs tab = Except.ok (st,
        { storage with sessions := updateFirstSession storage.sessions sid (fun t =>
            { t with
              tabs := replaceFirstTab (fun x => x.tabId == tab.id) (mkTabEntry now tab) s.tabs
              modified := now }) }) := by
      simp only [addTabToSession, h1, h2, hA, if_pos]
    refine ⟨_, hok, ?_⟩
    refine ⟨_, findSession_updateFirstSession_self _ h2 rfl, rfl, rfl, rfl, ?_, ?_, ?_, ?_, ?_⟩
    · simp [hA, replaceFirstTab_length]
    · intro _
      rfl
    · intro hA2 _
      simp [hA] at hA2
    · intro hA2 _
      simp [hA] at hA2
    · exact addTab_second_call cfg st _ now allTabs tab sid _
        h1 (findSession_updateFirstSession_self _ h2 rfl)
        (any_replaceFirstTab _ _ _ _ hentry hA)
        (replaceFirstTab_idem _ _ _ hentry) rfl
  · have hA' : s.tabs.any (fun t => t.tabId == tab.id) = false := by
      simpa using hA
    by_cases hB : s.tabs.any (fun t => t.url == some tab.url) = true
    · have hok : addTabToSession cfg st storage now allTabs tab = Except.ok (st,
          { storage with sessions := updateFirstSession storage.sessions sid (fun t =>
              { t with
                tabs := replaceFirstTab (fun x => x.url == some tab.url) (mkTabEntry now tab) s.tabs
                modified := now }) }) := by
        simp only [addTabToSession, h1, h2, hA', hB, if_pos, Bool.false_eq_true, if_neg,
          if_false]
      refine ⟨_, hok, ?_⟩
      refine ⟨_, findSession_updateFirstSession_self _ h2 rfl, rfl, rfl, rfl, ?_, ?_, ?_, ?_,
        ?_⟩
      · simp [hA', hB, replaceFirstTab_length]
      · intro hx
        simp [hx] at hA'
      · intro _ _
        rfl
      · intro _ hB2
        simp [hB] at hB2
      · exact addTab_second_call cfg st _ now allTabs tab sid _
          h1 (findSession_updateFirstSession_self _ h2 rfl)
          (any_replaceFirstTab _ _ _ _ hentry hB)
          (replaceFirstTab_of_any_false _ _ _ _ hA' hentry) rfl
    · have hB' : s.tabs.any (fun t => t.url == some tab.url) = false := by
        simpa using hB
      have hok : addTabToSession cfg st storage now allTabs tab = Except.ok (st,
          { storage with sessions := updateFirstSession storage.sessions sid (fun t =>
              { t with tabs := s.tabs ++ [mkTabEntry now tab], modified := now }) }) := by
        simp only [addTabToSession, h1, h2, hA', hB', if_pos, Bool.false_eq_true, if_neg,
          if_false]
      refine ⟨_, hok, ?_⟩
      refine ⟨_, findSession_updateFirstSession_self _ h2 rfl, rfl, rfl, rfl, ?_, ?_, ?_, ?_,
        ?_⟩
      · simp [hA', hB']
      · intro hx
        simp [hx] at hA'
      · intro _ hx
        simp [hx] at hB'
      · intro _ _
        refine ⟨rfl, ?_⟩
        have hzero : s.tabs.countP (fun t => t.tabId == tab.id) = 0 := by
          rw [List.countP_eq_zero]
          intro a ha
          have := List.any_eq_false.mp hA' a ha
          simpa using this
        show (s.tabs ++ [mkTabEntry now tab]).countP (fun t => t.tabId == tab.id) = 1
        rw [List.countP_append, hzero]
        simp [hentry]
      · exact addTab_second_call cfg st _ now allTabs tab sid _
          h1 (findSession_updateFirstSession_self _ h2 rfl)
          (by simp [List.any_append, hentry])
          (replaceFirstTab_append_self _ _ _ hA' hentry) rfl

/-- C7 witness: adding a fresh tab appends exactly one entry and the retry
returns the same state. -/
theorem addTab_spec_witness :
    ∃ storage1, addTabToSession ⟨50, 50⟩ ⟨some "a", 0⟩
        ⟨[⟨"a", "", 0, 0, [], [], none⟩], some "a"⟩ 4 []
        ⟨1, 1, "https://a.test/", "A", "", true⟩ = Except.ok (⟨some "a", 0⟩, storage1) ∧
      (∃ s1, findSession storage1.sessions "a" = some s1 ∧
        s1.tabs.length = 1 ∧ s1.tabs.countP (fun t => t.tabId == 1) = 1) ∧
      addTabToSession ⟨50, 50⟩ ⟨some "a", 0⟩ storage1 4 []
        ⟨1, 1, "https://a.test/", "A", "", true⟩ = Except.ok (⟨some "a", 0⟩, storage1) := by
  obtain ⟨storage1, hok, s1, hfind, _, _, _, hlen, _, _, hfresh, hretry⟩ :=
    addTab_spec ⟨50, 50⟩ ⟨some "a", 0⟩ ⟨[⟨"a", "", 0, 0, [], [], none⟩], some "a"⟩ 4 []
      ⟨1, 1, "https://a.test/", "A", "", true⟩ "a" ⟨"a", "", 0, 0, [], [], none⟩ rfl (by rfl)
  refine ⟨storage1, hok, ⟨s1, hfind, ?_, (hfresh rfl rfl).2⟩, hretry⟩
  rw [hlen]
  rfl

theorem take_if_gt {α : Type} (l : List α) (n : Nat) :
    (if l.length > n then l.take n else l) = l.take n := by
  by_cases h : l.length > n
  · rw [if_pos h]
  · rw [if_neg h, List.take_of_length_le (by omega)]

/-- C2: `createNewSession` prepends exactly one new session whose tabs are
the non-system incognito host tabs, truncates the list to `MAX_SESSIONS`
discarding the oldest, sets `currentSessionId` to the new id in storage and
in memory, and mints an id that differs from the id of any other call on
the same manager instance, even with the same timestamp. -/
theorem createNewSession_spec (cfg : Config) (st : MgrState) (storage : Storage)
    (now : Nat) (allTabs : List BrowserTab) (hMAX : 0 < cfg.MAX_SESSIONS) :
    (createNewSession cfg st storage now allTabs).2.2
        = mintSessionId now (st.sessionCounter + 1) ∧
    (createNewSession cfg st storage now allTabs).1.sessionCounter = st.sessionCounter + 1 ∧
    (∃ ns : Session,
      (createNewSession cfg st storage now allTabs).2.1.sessions
        = (ns :: storage.sessions).take cfg.MAX_SESSIONS ∧
      (createNewSession cfg st storage now allTabs).2.1.sessions.head? = some ns ∧
      ns.id = mintSessionId now (st.sessionCounter + 1) ∧
      ns.tabs = (validIncognitoTabs allTabs).map (mkTabEntry now) ∧
      ns.closedTabs = [] ∧ ns.created = now ∧ ns.modified = now ∧ ns.status = none ∧
      ns.name = "") ∧
    (createNewSession cfg st storage now allTabs).2.1.sessions.length
      = min (storage.sessions.length + 1) cfg.MAX_SESSIONS ∧
    (createNewSession cfg st storage now allTabs).2.1.currentSessionId
      = some (createNewSession cfg st storage now allTabs).2.2 ∧
    (createNewSession cfg st storage now allTabs).1.currentSessionId
      = some (createNewSession cfg st storage now allTabs).2.2 ∧
    (∀ k1 k2 n1 n2, k1 ≠ k2 → mintSessionId n1 k1 ≠ mintSessionId n2 k2) ∧
    (∀ storage2 now2 allTabs2,
      (createNewSession cfg (createNewSession cfg st storage now allTabs).1 storage2 now2
        allTabs2).2.2 ≠ (createNewSession cfg st storage now allTabs).2.2) := by
  obtain ⟨m, hm⟩ : ∃ m, cfg.MAX_SESSIONS = m + 1 := ⟨cfg.MAX_SESSIONS - 1, by omega⟩
  set ns : Session :=
    { id := mintSessionId now (st.sessionCounter + 1)
      name := ""
      created := now
      modified := now
      tabs := (validIncognitoTabs allTabs).map (mkTabEntry now)
      closedTabs := []
      status := none } with hns
  have hsessions : (createNewSession cfg st storage now allTabs).2.1.sessions
      = (ns :: storage.sessions).take cfg.MAX_SESSIONS := by
    simp only [createNewSession, formatSessionName, take_if_gt, hns]
  refine ⟨rfl, rfl, ⟨ns, hsessions, ?_, rfl, rfl, rfl, rfl, rfl, rfl, rfl⟩, ?_, rfl, rfl,
    fun k1 k2 n1 n2 hk => mintSessionId_ne hk, fun storage2 now2 allTabs2 => ?_⟩
  · rw [hsessions, hm, List.take_succ_cons]
    rfl
  · rw [hsessions, List.length_take]
    simp [Nat.min_comm]
  · show mintSessionId now2 (st.sessionCounter + 1 + 1)
        ≠ mintSessionId now (st.sessionCounter + 1)
    exact mintSessionId_ne (by omega)

/-- C2 witness: from an empty store with two incognito tabs, one session
with two tab entries is created; two calls in the same millisecond mint
different ids (per ScenarioA of the spec). -/
theorem createNewSession_spec_witness :
    (createNewSession ⟨50, 50⟩ ⟨none, 0⟩ ⟨[], none⟩ 5
        [⟨1, 1, "https://a.test", "A", "", true⟩, ⟨2, 1, "https://b.test", "B", "", true⟩]).2.1.sessions.length
      = 1 ∧
    (∃ ns, (createNewSession ⟨50, 50⟩ ⟨none, 0⟩ ⟨[], none⟩ 5
        [⟨1, 1, "https://a.test", "A", "", true⟩, ⟨2, 1, "https://b.test", "B", "", true⟩]).2.1.sessions.head?
        = some ns ∧ ns.tabs.length = 2) ∧
    (createNewSession ⟨50, 50⟩ ⟨none, 0⟩ ⟨[], none⟩ 5
        [⟨1, 1, "https://a.test", "A", "", true⟩, ⟨2, 1, "https://b.test", "B", "", true⟩]).2.1.currentSessionId
      = some (createNewSession ⟨50, 50⟩ ⟨none, 0⟩ ⟨[], none⟩ 5
        [⟨1, 1, "https://a.test", "A", "", true⟩, ⟨2, 1, "https://b.test", "B", "", true⟩]).2.2 ∧
    mintSessionId 5 1 ≠ mintSessionId 5 2 := by
  have h := createNewSession_spec ⟨50, 50⟩ ⟨none, 0⟩ ⟨[], none⟩ 5
    [⟨1, 1, "https://a.test", "A", "", true⟩, ⟨2, 1, "https://b.test", "B", "", true⟩]
    (by decide)
  obtain ⟨hid, hcnt, ⟨ns, hss, hhead, hnsid, hnstabs, _⟩, hlen, hcur, _, huniq, _⟩ := h
  refine ⟨?_, ⟨ns, hhead, ?_⟩, hcur, huniq 1 2 5 5 (by decide)⟩
  · rw [hlen]; rfl
  · rw [hnstabs]; decide

theorem addTab_ok_of_found (cfg : Config) (st : MgrState) (storage : Storage)
    (now : Nat) (allTabs : List BrowserTab) (tab : BrowserTab) (sid : String) (s : Session)
    (h1 : st.currentSessionId = some sid)
    (h2 : findSession storage.sessions sid = some s) :
    addTabToSession cfg st storage now allTabs tab = Except.ok (st,
      { storage with sessions := updateFirstSession storage.sessions sid (fun t =>
          { t with
            tabs := if s.tabs.any (fun x => x.tabId == tab.id) then
                replaceFirstTab (fun x => x.tabId == tab.id) (mkTabEntry now tab) s.tabs
              else if s.tabs.any (fun x => x.url == some tab.url) then
                replaceFirstTab (fun x => x.url == some tab.url) (mkTabEntry now tab) s.tabs
              else s.tabs ++ [mkTabEntry now tab]
            modified := now }) }) := by
  simp only [addTabToSession, h1, h2]

theorem cons_take_if_gt {α : Type} (a : α) (l : List α) (n : Nat) :
    (if (a :: l).length > n + 1 then a :: l.take n else a :: l)
      = a :: (if l.length > n then l.take n else l) := by
  by_cases h : l.length > n
  · rw [if_pos (by simpa using h), if_pos h]
  · rw [if_neg (by simpa using h), if_neg h]

/-- C9 counterexample: with `currentSessionId` set to an id absent from
storage (a dangling pointer), `addTabToSession` throws
`'Current session not found'` (line 153) instead of recovering via
`ensureActiveSession`, because the recovery check at line 145 only fires
when the pointer is null. -/
theorem addTab_dangling_throws :
    addTabToSession ⟨50, 50⟩ ⟨some "ghost", 3⟩ ⟨[], some "ghost"⟩ 5 []
        ⟨1, 1, "https://a.test/", "A", "", true⟩
      = Except.error "Current session not found" := by rfl

/-- C9 (amended): `ensureActiveSession` recovers from a dangling (or null)
`currentSessionId` by running `createNewSession`; `addTabToSession`
recovers only when `currentSessionId` is null (then it creates a session
and succeeds), while a non-null dangling pointer makes it throw
`'Current session not found'`. -/
theorem dangling_recovery_spec (cfg : Config) (st : MgrState) (storage : Storage)
    (now : Nat) (allTabs : List BrowserTab) (tab : BrowserTab) :
    (∀ sid, st.currentSessionId = some sid → findSession storage.sessions sid = none →
      ensureActiveSession cfg st storage now allTabs
        = createNewSession cfg st storage now allTabs) ∧
    (st.currentSessionId = none →
      ensureActiveSession cfg st storage now allTabs
        = createNewSession cfg st storage now allTabs) ∧
    (st.currentSessionId = none → 0 < cfg.MAX_SESSIONS →
      ∃ st1 storage1, addTabToSession cfg st storage now allTabs tab
        = Except.ok (st1, storage1)) ∧
    (∀ sid, st.currentSessionId = some sid → findSession storage.sessions sid = none →
      addTabToSession cfg st storage now allTabs tab
        = Except.error "Current session not found") := by
  refine ⟨fun sid h1 h2 => by simp [ensureActiveSession, h1, h2],
    fun h1 => by simp [ensureActiveSession, h1],
    fun h1 hpos => ?_,
    fun sid h1 h2 => by simp [addTabToSession, h1, h2]⟩
  obtain ⟨m, hm⟩ : ∃ m, cfg.MAX_SESSIONS = m + 1 := ⟨cfg.MAX_SESSIONS - 1, by omega⟩
  cases hres : addTabToSession cfg st storage now allTabs tab with
  | ok pr => exact ⟨pr.1, pr.2, rfl⟩
  | error e =>
    simp only [addTabToSession, h1, ensureActiveSession, createNewSession, formatSessionName,
      hm, List.take_succ_cons, cons_take_if_gt, findSession, eq_self_iff_true, if_true]
      at hres
    exact Except.noConfusion hres

/-- C9 witness: with a null pointer `addTabToSession` succeeds by creating a
session first; `ensureActiveSession` on a dangling pointer equals
`createNewSession`. -/
theorem dangling_recovery_spec_witness :
    (∃ st1 storage1, addTabToSession ⟨50, 50⟩ ⟨none, 0⟩ ⟨[], none⟩ 5 []
        ⟨1, 1, "https://a.test/", "A", "", true⟩ = Except.ok (st1, storage1)) ∧
    ensureActiveSession ⟨50, 50⟩ ⟨some "ghost", 3⟩ ⟨[], some "ghost"⟩ 5 []
      = createNewSession ⟨50, 50⟩ ⟨some "ghost", 3⟩ ⟨[], some "ghost"⟩ 5 [] := by
  have h1 := dangling_recovery_spec ⟨50, 50⟩ ⟨none, 0⟩ ⟨[], none⟩ 5 []
    ⟨1, 1, "https://a.test/", "A", "", true⟩
  have h2 := dangling_recovery_spec ⟨50, 50⟩ ⟨some "ghost", 3⟩ ⟨[], some "ghost"⟩ 5 []
    ⟨1, 1, "https://a.test/", "A", "", true⟩
  exact ⟨h1.2.2.1 rfl (by decide), h2.1 "ghost" rfl (by rfl)⟩

theorem ensure_checks_invariant (evs : List EnsureEvent)
    (hall : ∀ e ∈ evs, e = EnsureEvent.check false) :
    ∀ s : EnsureState, s.slot = some 0 → s.creations = 1 →
      (∀ p ∈ s.waits, p = 0) →
      (evs.foldl ensureStep s).slot = some 0 ∧
      (evs.foldl ensureStep s).creations = 1 ∧
      (∀ p ∈ (evs.foldl ensureStep s).waits, p = 0) ∧
      (evs.foldl ensureStep s).waits.length = s.waits.length + evs.length := by
  induction evs with
  | nil => intro s h1 h2 h3; exact ⟨h1, h2, h3, rfl⟩
  | cons e rest ih =>
    intro s h1 h2 h3
    have he : e = EnsureEvent.check false := hall e (List.mem_cons_self _ _)
    subst he
    rw [List.foldl_cons]
    have hstep : ensureStep s (EnsureEvent.check false) = { s with waits := s.waits ++ [0] } := by
      simp [ensureStep, h1]
    rw [hstep]
    have h3' : ∀ p ∈ s.waits ++ [0], p = 0 := by
      intro p hp
      rcases List.mem_append.mp hp with hp | hp
      · exact h3 p hp
      · simpa using hp
    have := ih (fun x hx => hall x (List.mem_cons_of_mem _ hx))
      { s with waits := s.waits ++ [0] } h1 h2 h3'
    refine ⟨this.1, this.2.1, this.2.2.1, ?_⟩
    rw [this.2.2.2]
    show (s.waits ++ [0]).length + rest.length = s.waits.length + (rest.length + 1)
    simp only [List.length_append, List.length_singleton]
    omega

/-- C1: in the promise-slot model of `ensureActiveSession` (lines 74-91),
when any number of callers all run their check during the same
no-active-session window (every check sees no active session and happens
before the creation promise settles), exactly one `createNewSession` is
started: the first caller installs promise 0, every caller ends up awaiting
that same promise, and the settle event (success or failure alike, the
`.finally` of lines 84-86) clears the slot. -/
theorem ensure_single_creation (evs : List EnsureEvent) (b : Bool)
    (hne : evs ≠ [])
    (hall : ∀ e ∈ evs, e = EnsureEvent.check false) :
    (ensureRun evs).slot = some 0 ∧
    (ensureRun evs).creations = 1 ∧
    (ensureRun (evs ++ [EnsureEvent.settle b])).creations = 1 ∧
    (ensureRun (evs ++ [EnsureEvent.settle b])).slot = none ∧
    (ensureRun (evs ++ [EnsureEvent.settle b])).waits.length = evs.length ∧
    (∀ p ∈ (ensureRun (evs ++ [EnsureEvent.settle b])).waits, p = 0) := by
  cases evs with
  | nil => exact absurd rfl hne
  | cons e rest =>
    have he : e = EnsureEvent.check false := hall e (List.mem_cons_self _ _)
    subst he
    have hfirst : ensureStep ensureInit (EnsureEvent.check false)
        = { slot := some 0, nextPid := 1, creations := 1, waits := [0] } := by rfl
    have hinv := ensure_checks_invariant rest
      (fun x hx => hall x (List.mem_cons_of_mem _ hx))
      { slot := some 0, nextPid := 1, creations := 1, waits := [0] } rfl rfl
      (by intro p hp; simpa using hp)
    have hrun : ensureRun (EnsureEvent.check false :: rest)
        = rest.foldl ensureStep { slot := some 0, nextPid := 1, creations := 1, waits := [0] } := by
      rw [ensureRun, List.foldl_cons, hfirst]
    have hrunset : ensureRun ((EnsureEvent.check false :: rest) ++ [EnsureEvent.settle b])
        = ensureStep (ensureRun (EnsureEvent.check false :: rest)) (EnsureEvent.settle b) := by
      rw [ensureRun, List.foldl_append]
      rfl
    have hsettle : ∀ t : EnsureState, ensureStep t (EnsureEvent.settle b) = { t with slot := none } := by
      intro t; rfl
    rw [hrun] at hrunset ⊢
    rw [hrunset, hsettle]
    refine ⟨hinv.1, hinv.2.1, hinv.2.1, rfl, ?_, hinv.2.2.1⟩
    rw [hinv.2.2.2]
    show 1 + rest.length = rest.length + 1
    omega

/-- C1 witness: three concurrent callers, then the promise settles with
failure: one creation, all three waiting on promise 0, slot cleared. -/
theorem ensure_single_creation_witness :
    (ensureRun [EnsureEvent.check false, EnsureEvent.check false,
      EnsureEvent.check false]).creations = 1 ∧
    (ensureRun ([EnsureEvent.check false, EnsureEvent.check false, EnsureEvent.check false]
        ++ [EnsureEvent.settle false])).creations = 1 ∧
    (ensureRun ([EnsureEvent.check false, EnsureEvent.check false, EnsureEvent.check false]
        ++ [EnsureEvent.settle false])).slot = none ∧
    (ensureRun ([EnsureEvent.check false, EnsureEvent.check false, EnsureEvent.check false]
        ++ [EnsureEvent.settle false])).waits.length = 3 := by
  have h := ensure_single_creation
    [EnsureEvent.check false, EnsureEvent.check false, EnsureEvent.check false] false
    (by decide) (by decide)
  exact ⟨h.2.1, h.2.2.1, h.2.2.2.1, h.2.2.2.2.1⟩
